import Mathlib

/-!
Shallow embedding of the HireGenius match scorer
(`calculateMatchScore` in `src/app/api/applications/route.ts`).

Numbers computed by the scorer are embedded as exact rationals;
timestamps are integers (milliseconds since the epoch), and the
current time read by `new Date()` is passed in as an explicit `now`
parameter.  Skill names are embedded as lists of characters, and the
`toLowerCase` call of the code as mapping `Char.toLower` over the
characters.
-/

namespace HireGenius

/-- A skill name, embedded as its list of characters. -/
abbrev SkillName : Type := List Char

/-- The `toLowerCase` call of the code, character by character. -/
def strToLower (s : SkillName) : SkillName := List.map Char.toLower s

/-- Milliseconds in one year, as used by the scorer:
`1000 * 60 * 60 * 24 * 365`. -/
def yearMs : Int := 1000 * 60 * 60 * 24 * 365

/-- An experience record: a start timestamp and an optional end timestamp
(`endDate` is `none` for an ongoing position, in which case the code
substitutes `new Date()`, i.e. the current time). -/
structure Experience where
  startDate : Int
  endDate : Option Int
deriving DecidableEq

/-- A job seeker profile as fetched with `skills`, `experiences` and
`educations` included.  Skill records are represented by their `name`
field; education records carry no data the scorer reads. -/
structure JobSeekerProfile where
  skills : List SkillName
  experiences : List Experience
  educations : List Unit
deriving DecidableEq

/-- A job posting as fetched with `requiredSkills` included, each skill
represented by its `name` field. -/
structure JobPosting where
  requiredSkills : List SkillName
deriving DecidableEq

/-- JavaScript `Math.round`: round half toward positive infinity,
i.e. `⌊q + 1/2⌋`. -/
def jsRound (q : ℚ) : ℤ := ⌊q + 1 / 2⌋

/-- The skill block of the scorer.  Both arguments are the already
lowercased skill-name lists (`candidateSkills`, `requiredSkills` in the
code).  With required skills present, the candidate skills occurring in
the required list are counted and `min(skillMatchPercentage * 0.3, 30)`
is returned; otherwise `min(candidateSkills.length * 2, 15)`. -/
def skillScore (candidateSkills requiredSkills : List SkillName) : ℚ :=
  if 0 < requiredSkills.length then
    let matchedSkills := candidateSkills.filter fun s => requiredSkills.contains s
    let skillMatchPercentage : ℚ := ((matchedSkills.length : ℚ) / (requiredSkills.length : ℚ)) * 100
    min (skillMatchPercentage * (3 / 10)) 30
  else
    min ((candidateSkills.length : ℚ) * 2) 15

/-- The experience block of the scorer: a left fold (`reduce`) over the
experience records accumulating `(endDate ?? now - startDate) / yearMs`. -/
def experienceYears (experiences : List Experience) (now : Int) : ℚ :=
  experiences.foldl
    (fun total exp =>
      let startDate := exp.startDate
      let endDate := exp.endDate.getD now
      let years : ℚ := ((endDate : ℚ) - (startDate : ℚ)) / (yearMs : ℚ)
      total + years)
    0

/-- The match scorer.  The two `Option` arguments are the results of the
two `findUnique` lookups; when either is `none` the code returns `0`.
Otherwise: base 50, plus the skill block on the lowercased skill names,
plus `min(experienceYears * 3, 15)`, plus 5 when any education record
exists, and finally `Math.min(Math.round(score), 100)`. -/
def calculateMatchScore (profile : Option JobSeekerProfile)
    (posting : Option JobPosting) (now : Int) : Int :=
  match profile, posting with
  | some jobSeekerProfile, some jobPosting =>
    let candidateSkills := jobSeekerProfile.skills.map strToLower
    let requiredSkills := jobPosting.requiredSkills.map strToLower
    let score1 : ℚ := 50 + skillScore candidateSkills requiredSkills
    let score2 : ℚ := score1 + min (experienceYears jobSeekerProfile.experiences now * 3) 15
    let score3 : ℚ := if 0 < jobSeekerProfile.educations.length then score2 + 5 else score2
    min (jsRound score3) 100
  | _, _ => 0

/-- The experiences carried by an optional profile (empty when absent),
used to state hypotheses about an `Option JobSeekerProfile` input. -/
def experiencesOf (profile : Option JobSeekerProfile) : List Experience :=
  match profile with
  | some p => p.experiences
  | none => []

/-- The matched-skill count in the words of the spec: the number of
candidate skills that occur, case-insensitively, in the required-skill
list. -/
def matchedCountSpec (cand req : List SkillName) : ℕ :=
  (cand.filter fun c => (req.map strToLower).contains (strToLower c)).length

/-- Experience years in the words of the spec: the sum over intervals of
the duration in years from the start date to the end date, or to the
current time when the interval has no end date. -/
def experienceYearsSpec (experiences : List Experience) (now : Int) : ℚ :=
  (experiences.map fun e =>
    ((e.endDate.getD now : ℚ) - (e.startDate : ℚ)) / (yearMs : ℚ)).sum

/-- The scorer with the outer `Math.min(·, 100)` removed, identical to
`calculateMatchScore` otherwise; used to state that the cap is
redundant. -/
def calculateMatchScoreNoCap (profile : Option JobSeekerProfile)
    (posting : Option JobPosting) (now : Int) : Int :=
  match profile, posting with
  | some jobSeekerProfile, some jobPosting =>
    let candidateSkills := jobSeekerProfile.skills.map strToLower
    let requiredSkills := jobPosting.requiredSkills.map strToLower
    let score1 : ℚ := 50 + skillScore candidateSkills requiredSkills
    let score2 : ℚ := score1 + min (experienceYears jobSeekerProfile.experiences now * 3) 15
    let score3 : ℚ := if 0 < jobSeekerProfile.educations.length then score2 + 5 else score2
    jsRound score3
  | _, _ => 0

/-! ### Helper lemmas -/

theorem yearMs_pos : (0 : ℚ) < (yearMs : ℚ) := by norm_num [yearMs]

theorem experienceYears_foldl (now : Int) (l : List Experience) (init : ℚ) :
    l.foldl
      (fun total exp =>
        total + ((exp.endDate.getD now : ℚ) - (exp.startDate : ℚ)) / (yearMs : ℚ)) init =
      init + (l.map fun e =>
        ((e.endDate.getD now : ℚ) - (e.startDate : ℚ)) / (yearMs : ℚ)).sum := by
  induction l generalizing init with
  | nil => simp
  | cons a t ih => simp [ih, add_assoc]

theorem experienceYears_eq_spec (l : List Experience) (now : Int) :
    experienceYears l now = experienceYearsSpec l now := by
  have h := experienceYears_foldl now l 0
  simpa [experienceYears, experienceYearsSpec] using h

theorem skillScore_nonneg (c r : List SkillName) : 0 ≤ skillScore c r := by
  unfold skillScore
  split
  · exact le_min (by positivity) (by norm_num)
  · exact le_min (by positivity) (by norm_num)

theorem skillScore_le_30 (c r : List SkillName) : skillScore c r ≤ 30 := by
  unfold skillScore
  split
  · exact min_le_right _ _
  · exact (min_le_right _ _).trans (by norm_num)

theorem jsRound_le_of_le {q : ℚ} {n : ℤ} (h : q ≤ (n : ℚ)) : jsRound q ≤ n := by
  have h2 : jsRound q ≤ ⌊(n : ℚ) + 1 / 2⌋ := Int.floor_le_floor (by linarith)
  simpa [Int.floor_int_add, show ⌊(2⁻¹ : ℚ)⌋ = 0 by norm_num] using h2

theorem le_jsRound_of_le {q : ℚ} {n : ℤ} (h : (n : ℚ) ≤ q) : n ≤ jsRound q := by
  have h2 : ⌊(n : ℚ) + 1 / 2⌋ ≤ jsRound q := Int.floor_le_floor (by linarith)
  simpa [Int.floor_int_add, show ⌊(2⁻¹ : ℚ)⌋ = 0 by norm_num] using h2

theorem calculateMatchScore_eq (p : JobSeekerProfile) (j : JobPosting) (now : Int) :
    calculateMatchScore (some p) (some j) now =
      min (jsRound ((50 + skillScore (p.skills.map strToLower) (j.requiredSkills.map strToLower)
        + min (experienceYears p.experiences now * 3) 15)
        + (if 0 < p.educations.length then (5 : ℚ) else 0))) 100 := by
  simp only [calculateMatchScore]
  split <;> ring_nf

theorem calculateMatchScoreNoCap_eq (p : JobSeekerProfile) (j : JobPosting) (now : Int) :
    calculateMatchScoreNoCap (some p) (some j) now =
      jsRound ((50 + skillScore (p.skills.map strToLower) (j.requiredSkills.map strToLower)
        + min (experienceYears p.experiences now * 3) 15)
        + (if 0 < p.educations.length then (5 : ℚ) else 0)) := by
  simp only [calculateMatchScoreNoCap]
  split <;> ring_nf

theorem experienceYears_nonneg (l : List Experience) (now : Int)
    (h : ∀ e ∈ l, e.startDate ≤ e.endDate.getD now) : 0 ≤ experienceYears l now := by
  rw [experienceYears_eq_spec, experienceYearsSpec]
  refine List.sum_nonneg ?_
  intro x hx
  rcases List.mem_map.mp hx with ⟨e, he, rfl⟩
  have h1 : (e.startDate : ℚ) ≤ ((e.endDate.getD now : ℤ) : ℚ) := by
    exact_mod_cast h e he
  exact div_nonneg (by linarith) yearMs_pos.le

theorem preScore_le_100 (p : JobSeekerProfile) (j : JobPosting) (now : Int) :
    (50 + skillScore (p.skills.map strToLower) (j.requiredSkills.map strToLower)
      + min (experienceYears p.experiences now * 3) 15)
      + (if 0 < p.educations.length then (5 : ℚ) else 0) ≤ 100 := by
  have h1 := skillScore_le_30 (p.skills.map strToLower) (j.requiredSkills.map strToLower)
  have h2 : min (experienceYears p.experiences now * 3) 15 ≤ 15 := min_le_right _ _
  have h3 : (if 0 < p.educations.length then (5 : ℚ) else 0) ≤ 5 := by split <;> norm_num
  linarith

theorem base_floor (p : JobSeekerProfile) (j : JobPosting) (now : Int)
    (h : ∀ e ∈ p.experiences, e.startDate ≤ e.endDate.getD now) :
    50 ≤ calculateMatchScore (some p) (some j) now := by
  rw [calculateMatchScore_eq]
  have h1 := skillScore_nonneg (p.skills.map strToLower) (j.requiredSkills.map strToLower)
  have h2 : (0 : ℚ) ≤ min (experienceYears p.experiences now * 3) 15 := by
    have := experienceYears_nonneg p.experiences now h
    exact le_min (by linarith) (by norm_num)
  have h3 : (0 : ℚ) ≤ (if 0 < p.educations.length then (5 : ℚ) else 0) := by
    split <;> norm_num
  have h50 : ((50 : ℤ) : ℚ) ≤
      (50 + skillScore (p.skills.map strToLower) (j.requiredSkills.map strToLower)
        + min (experienceYears p.experiences now * 3) 15)
        + (if 0 < p.educations.length then (5 : ℚ) else 0) := by
    push_cast
    linarith
  exact le_min (le_jsRound_of_le h50) (by norm_num)

theorem score_le_100 (p : Option JobSeekerProfile) (j : Option JobPosting) (now : Int) :
    calculateMatchScore p j now ≤ 100 := by
  cases p with
  | none => cases j <;> norm_num [calculateMatchScore]
  | some pp =>
    cases j with
    | none => norm_num [calculateMatchScore]
    | some jj =>
      rw [calculateMatchScore_eq]
      exact min_le_right _ _

/-! ### Claim theorems -/

/-- Claim C1, counterexample: with one experience interval whose end date
(timestamp 0) precedes its start date (20 years later), the returned
match score is negative, so it does not lie in the interval `[0, 100]`.
The code caps the score above with `Math.min(·, 100)` but never clamps
it below. -/
theorem c1_counterexample :
    calculateMatchScore (some ⟨[], [⟨20 * yearMs, some 0⟩], []⟩) (some ⟨[]⟩) 0 < 0 := by
  norm_num [calculateMatchScore, skillScore, experienceYears, jsRound, yearMs]

/-- Claim C1, amended: the returned match score is an integer at most
100 for every input, and it lies in `[0, 100]` whenever every experience
interval ends (at its end date, or at the current time when open) no
earlier than it starts. -/
theorem c1_score_range_amended (p : Option JobSeekerProfile) (j : Option JobPosting)
    (now : Int) :
    calculateMatchScore p j now ≤ 100 ∧
      ((∀ e ∈ experiencesOf p, e.startDate ≤ e.endDate.getD now) →
        0 ≤ calculateMatchScore p j now) := by
  refine ⟨score_le_100 p j now, ?_⟩
  intro h
  cases p with
  | none => cases j <;> norm_num [calculateMatchScore]
  | some pp =>
    cases j with
    | none => norm_num [calculateMatchScore]
    | some jj =>
      have h50 := base_floor pp jj now (by simpa [experiencesOf] using h)
      linarith

theorem c1_score_range_amended_witness :
    (∀ e ∈ experiencesOf (some ⟨[], [⟨0, some yearMs⟩], []⟩), e.startDate ≤ e.endDate.getD 0) ∧
      (0 : ℤ) ≤ calculateMatchScore (some ⟨[], [⟨0, some yearMs⟩], []⟩) (some ⟨[]⟩) 0 :=
  ⟨by decide, (c1_score_range_amended (some ⟨[], [⟨0, some yearMs⟩], []⟩) (some ⟨[]⟩) 0).2
    (by decide)⟩

/-- Claim C2: with a non-empty required-skill list, the skill
contribution added to the base score equals
`min((matchedCount / requiredCount) * 100 * 0.3, 30)`, where
`matchedCount` counts the candidate skills occurring case-insensitively
in the required list and `requiredCount` is the number of required
skills. -/
theorem c2_skill_contribution (cand req : List SkillName) (h : req ≠ []) :
    skillScore (cand.map strToLower) (req.map strToLower) =
      min ((matchedCountSpec cand req : ℚ) / (req.length : ℚ) * 100 * (3 / 10)) 30 := by
  have hpos : 0 < (req.map strToLower).length := by
    simpa using List.length_pos.mpr h
  simp only [skillScore, if_pos hpos, matchedCountSpec]
  rw [List.filter_map, List.length_map, List.length_map]
  rfl

theorem c2_skill_contribution_witness :
    ([['a']] : List SkillName) ≠ [] ∧
      skillScore (([['a']] : List SkillName).map strToLower)
          (([['a']] : List SkillName).map strToLower) =
        min ((matchedCountSpec [['a']] [['a']] : ℚ) /
          ((([['a']] : List SkillName).length : ℚ)) * 100 * (3 / 10)) 30 :=
  ⟨by decide, c2_skill_contribution [['a']] [['a']] (by decide)⟩

/-- Claim C3: the experience contribution of the scorer equals
`min(experienceYears * 3, 15)` with `experienceYears` the sum over the
intervals of the duration in years to the end date, or to the current
time when the interval has no end date: the left fold of the code
computes exactly that sum. -/
theorem c3_experience_contribution (exps : List Experience) (now : Int) :
    experienceYears exps now = experienceYearsSpec exps now ∧
      min (experienceYears exps now * 3) 15 = min (experienceYearsSpec exps now * 3) 15 := by
  refine ⟨experienceYears_eq_spec exps now, ?_⟩
  rw [experienceYears_eq_spec]

/-- Claim C4, counterexample: when the job seeker profile cannot be
found the scorer returns `0`, not the base score `50`. -/
theorem c4_counterexample :
    calculateMatchScore none (some ⟨[]⟩) 0 ≠ 50 := by decide

/-- Claim C4, amended: when the candidate profile or the job posting
cannot be found the scorer returns `0` rather than the base score;
when both are present and all collections are empty it returns exactly
the base score `50`. -/
theorem c4_missing_inputs_amended (p : Option JobSeekerProfile) (j : Option JobPosting)
    (now : Int) :
    calculateMatchScore none j now = 0 ∧
      calculateMatchScore p none now = 0 ∧
      calculateMatchScore (some ⟨[], [], []⟩) (some ⟨[]⟩) now = 50 := by
  refine ⟨by cases j <;> rfl, by cases p <;> rfl, ?_⟩
  norm_num [calculateMatchScore, skillScore, experienceYears, jsRound]

/-- Claim C5, counterexample: the required-skill list `["a", "a"]` is
non-empty and the candidate list `["a"]` contains every required skill
case-insensitively, yet the skill contribution is `15`, not `30`,
because the one matched candidate skill is divided by the required
count `2`. -/
theorem c5_counterexample :
    (∀ r ∈ ([['a'], ['a']] : List SkillName), ∃ c ∈ ([['a']] : List SkillName),
      strToLower c = strToLower r) ∧
      skillScore (([['a']] : List SkillName).map strToLower)
        (([['a'], ['a']] : List SkillName).map strToLower) ≠ 30 := by
  constructor
  · decide
  · norm_num [skillScore, strToLower]

/-- Claim C5, amended: with a non-empty required-skill list whose
lowercased entries are pairwise distinct, a candidate list containing
every required skill case-insensitively yields a skill contribution of
exactly `30`. -/
theorem c5_all_matched_amended (cand req : List SkillName) (hne : req ≠ [])
    (hnd : (req.map strToLower).Nodup)
    (hall : ∀ r ∈ req, ∃ c ∈ cand, strToLower c = strToLower r) :
    skillScore (cand.map strToLower) (req.map strToLower) = 30 := by
  have hpos : 0 < (req.map strToLower).length := by
    simpa using List.length_pos.mpr hne
  simp only [skillScore, if_pos hpos]
  have hsub : (req.map strToLower) ⊆
      (cand.map strToLower).filter fun s => (req.map strToLower).contains s := by
    intro x hx
    rcases List.mem_map.mp hx with ⟨r, hr, rfl⟩
    rcases hall r hr with ⟨c, hc, hcr⟩
    refine List.mem_filter.mpr ⟨List.mem_map.mpr ⟨c, hc, hcr⟩, ?_⟩
    exact List.elem_iff.mpr hx
  have hlen : (req.map strToLower).length ≤
      ((cand.map strToLower).filter fun s => (req.map strToLower).contains s).length :=
    (List.subperm_of_subset hnd hsub).length_le
  have hr0 : (0 : ℚ) < ((req.map strToLower).length : ℚ) := by exact_mod_cast hpos
  have h1 : (1 : ℚ) ≤
      (((cand.map strToLower).filter fun s => (req.map strToLower).contains s).length : ℚ) /
        ((req.map strToLower).length : ℚ) := by
    rw [le_div_iff₀ hr0, one_mul]
    exact_mod_cast hlen
  refine min_eq_right ?_
  nlinarith

theorem c5_all_matched_amended_witness :
    (([['A']] : List SkillName) ≠ [] ∧ (([['A']] : List SkillName).map strToLower).Nodup ∧
      ∀ r ∈ ([['A']] : List SkillName), ∃ c ∈ ([['a']] : List SkillName),
        strToLower c = strToLower r) ∧
      skillScore (([['a']] : List SkillName).map strToLower)
        (([['A']] : List SkillName).map strToLower) = 30 :=
  ⟨⟨by decide, by decide, by decide⟩,
    c5_all_matched_amended [['a']] [['A']] (by decide) (by decide) (by decide)⟩

/-- Claim C6: with an empty required-skill list the skill contribution
equals `min(candidateSkillCount * 2, 15)`, where `candidateSkillCount`
is the number of skills the candidate has. -/
theorem c6_no_required_skills (cand : List SkillName) :
    skillScore (cand.map strToLower) (([] : List SkillName).map strToLower) =
      min ((cand.length : ℚ) * 2) 15 := by
  simp [skillScore]

/-- Claim C7, counterexample: a profile with one open-ended experience
interval started at timestamp `0` scores `50` when evaluated at current
time `0` but `53` when evaluated one year later, so the score is not
independent of the time at which the evaluation runs. -/
theorem c7_counterexample :
    calculateMatchScore (some ⟨[], [⟨0, none⟩], []⟩) (some ⟨[]⟩) 0 ≠
      calculateMatchScore (some ⟨[], [⟨0, none⟩], []⟩) (some ⟨[]⟩) yearMs := by
  norm_num [calculateMatchScore, skillScore, experienceYears, jsRound, yearMs]

/-- Claim C7, amended: the scorer is deterministic in its inputs and the
current time, and whenever every experience interval carries an explicit
end date the score is independent of the current time; with an
open-ended interval the score can change as time passes. -/
theorem c7_time_independence_amended (p : Option JobSeekerProfile) (j : Option JobPosting)
    (now now' : Int) (h : ∀ e ∈ experiencesOf p, e.endDate.isSome) :
    calculateMatchScore p j now = calculateMatchScore p j now' := by
  cases p with
  | none => cases j <;> rfl
  | some pp =>
    cases j with
    | none => rfl
    | some jj =>
      have hE : experienceYears pp.experiences now = experienceYears pp.experiences now' := by
        rw [experienceYears_eq_spec, experienceYears_eq_spec, experienceYearsSpec,
          experienceYearsSpec]
        congr 1
        refine List.map_congr_left ?_
        intro e he
        rcases Option.isSome_iff_exists.mp (h e (by simpa [experiencesOf] using he)) with ⟨v, hv⟩
        simp [hv]
      simp only [calculateMatchScore, hE]

theorem c7_time_independence_amended_witness :
    (∀ e ∈ experiencesOf (some ⟨[], [⟨0, some 5⟩], []⟩), e.endDate.isSome) ∧
      calculateMatchScore (some ⟨[], [⟨0, some 5⟩], []⟩) (some ⟨[]⟩) 3 =
        calculateMatchScore (some ⟨[], [⟨0, some 5⟩], []⟩) (some ⟨[]⟩) 8 :=
  ⟨by decide,
    c7_time_independence_amended (some ⟨[], [⟨0, some 5⟩], []⟩) (some ⟨[]⟩) 3 8 (by decide)⟩

/-- Claim C8: replacing candidate or required skill names by
case-variants, i.e. by names with the same lowercasing, leaves the
computed match score unchanged. -/
theorem c8_case_insensitive (skills skills' reqs reqs' : List SkillName)
    (exps : List Experience) (edu : List Unit) (now : Int)
    (h1 : skills.map strToLower = skills'.map strToLower)
    (h2 : reqs.map strToLower = reqs'.map strToLower) :
    calculateMatchScore (some ⟨skills, exps, edu⟩) (some ⟨reqs⟩) now =
      calculateMatchScore (some ⟨skills', exps, edu⟩) (some ⟨reqs'⟩) now := by
  simp only [calculateMatchScore, h1, h2]

theorem c8_case_insensitive_witness :
    (([['A']] : List SkillName).map strToLower = ([['a']] : List SkillName).map strToLower ∧
      ([['B']] : List SkillName).map strToLower = ([['b']] : List SkillName).map strToLower) ∧
      calculateMatchScore (some ⟨[['A']], [], []⟩) (some ⟨[['B']]⟩) 0 =
        calculateMatchScore (some ⟨[['a']], [], []⟩) (some ⟨[['b']]⟩) 0 :=
  ⟨⟨by decide, by decide⟩,
    c8_case_insensitive [['A']] [['a']] [['B']] [['b']] [] [] 0 (by decide) (by decide)⟩

/-- Claim C9: when the candidate profile and the job posting are both
present and every experience interval ends (at its end date, or at the
current time when open) no earlier than it starts, every contribution
added to the base score is non-negative and the returned score is at
least `50`. -/
theorem c9_base_floor (p : JobSeekerProfile) (j : JobPosting) (now : Int)
    (h : ∀ e ∈ p.experiences, e.startDate ≤ e.endDate.getD now) :
    50 ≤ calculateMatchScore (some p) (some j) now :=
  base_floor p j now h

theorem c9_base_floor_witness :
    (∀ e ∈ (JobSeekerProfile.mk [] [] []).experiences, e.startDate ≤ e.endDate.getD 0) ∧
      (50 : ℤ) ≤ calculateMatchScore (some ⟨[], [], []⟩) (some ⟨[]⟩) 0 :=
  ⟨by decide, c9_base_floor ⟨[], [], []⟩ ⟨[]⟩ 0 (by decide)⟩

/-- Claim C10: when every experience interval has non-negative duration
the pre-cap score is at most `50 + 30 + 15 + 5 = 100`, so the outer
`Math.min(·, 100)` is redundant and the scorer with the cap removed
computes the same result. -/
theorem c10_cap_redundant (p : Option JobSeekerProfile) (j : Option JobPosting) (now : Int)
    (h : ∀ e ∈ experiencesOf p, e.startDate ≤ e.endDate.getD now) :
    calculateMatchScore p j now = calculateMatchScoreNoCap p j now := by
  cases p with
  | none => cases j <;> rfl
  | some pp =>
    cases j with
    | none => rfl
    | some jj =>
      rw [calculateMatchScore_eq, calculateMatchScoreNoCap_eq]
      refine min_eq_left (jsRound_le_of_le ?_)
      have := preScore_le_100 pp jj now
      push_cast
      linarith

theorem c10_cap_redundant_witness :
    (∀ e ∈ experiencesOf (some ⟨[], [⟨0, some yearMs⟩], []⟩), e.startDate ≤ e.endDate.getD 0) ∧
      calculateMatchScore (some ⟨[], [⟨0, some yearMs⟩], []⟩) (some ⟨[]⟩) 0 =
        calculateMatchScoreNoCap (some ⟨[], [⟨0, some yearMs⟩], []⟩) (some ⟨[]⟩) 0 :=
  ⟨by decide,
    c10_cap_redundant (some ⟨[], [⟨0, some yearMs⟩], []⟩) (some ⟨[]⟩) 0 (by decide)⟩

end HireGenius
